import Mathlib

/-!
Shallow embedding of the loan/reservation core of the LibraryManagementSystem
repository (Django): `loans/models.py`, `loans/serializers.py`,
`loans/views/loan_views.py`, `loans/views/reservation_views.py`,
`books/models.py`.

Dates are modelled as integer day counts and datetimes as integer hour
counts.  Monetary amounts are integers (the fine rate is an integer number
of currency units per day).  Database rows are list entries; `find?` models
`Model.objects.get` / instance lookup and element-wise `map` models
`queryset.update(...)`.
-/

namespace LMS

/-- Setting `LIBRARY_SETTINGS['LOAN_DURATION_DAYS']` (config/settings.py line 606). -/
def LOAN_DURATION_DAYS : Int := 14

/-- Setting `LIBRARY_SETTINGS['MAX_RENEWAL_COUNT']` (config/settings.py line 607). -/
def MAX_RENEWAL_COUNT : Nat := 2

/-- Setting `LIBRARY_SETTINGS['FINE_PER_DAY']` (config/settings.py line 608). -/
def FINE_PER_DAY : Int := 1000

/-- Setting `LIBRARY_SETTINGS['MAX_BOOKS_PER_USER']` (config/settings.py line 605). -/
def MAX_BOOKS_PER_USER : Nat := 5

/-- Setting `LIBRARY_SETTINGS['RESERVATION_DURATION_HOURS']` (settings.py line 609). -/
def RESERVATION_DURATION_HOURS : Int := 24

/-- The key `RESERVATION_PICKUP_HOURS` is absent from `LIBRARY_SETTINGS`, so the
`.get(..., 48)` default in `Reservation.confirm` always yields 48. -/
def RESERVATION_PICKUP_HOURS : Int := 48

/-- Status choices of `LoanStatus` (loans/models.py lines 20-27). -/
inductive LoanStatus where
  | active | returned | overdue | renewed | lost | damaged
deriving DecidableEq, Repr

/-- Status choices of `ReservationStatus` (loans/models.py lines 30-36). -/
inductive ResStatus where
  | pending | confirmed | fulfilled | cancelled | expired
deriving DecidableEq, Repr

/-- The slice of the user model the loan core reads: identity and whether
`account_status == 'active'` (loans/serializers.py lines 96-103). -/
structure User where
  uid : Nat
  accountActive : Bool
deriving DecidableEq, Repr

/-- The slice of `books.models.Book` the loan core reads and writes
(books/models.py lines 122-123).  The fields are declared
`PositiveIntegerField` in the source; we use `Int` because the Python-level
mutations `available_copies -= 1` / `+= 1` are plain integer arithmetic and
can leave the in-memory value negative before any database check runs. -/
structure Book where
  bid : Nat
  total_copies : Int
  available_copies : Int
deriving DecidableEq, Repr

/-- One entry of `Loan.renewal_history` (loans/models.py lines 264-270). -/
structure RenewalEntry where
  date : Int
  old_due_date : Int
  new_due_date : Int
  reason : String
  renewal_number : Nat
deriving DecidableEq, Repr

/-- Model `loans.models.Loan`.  `due_date` is a non-nullable `DateField`
(loans/models.py line 127), so it is a plain `Int` here; `return_date`
is nullable (line 130). -/
structure Loan where
  lid : Nat
  user : Nat
  book : Nat
  status : LoanStatus
  loan_date : Int
  due_date : Int
  return_date : Option Int
  renewal_count : Nat
  renewal_history : List RenewalEntry
  fine_amount : Int
  fine_paid : Bool
  fine_waived : Bool
  notes : String
deriving DecidableEq, Repr

/-- Model `loans.models.Reservation` (loans/models.py lines 352-458).
`queue_position` is a `PositiveIntegerField(default=1)`: Django applies the
default at instance construction, so a freshly created reservation already
carries `queue_position = 1` when `save()` runs. -/
structure Reservation where
  rid : Nat
  user : Nat
  book : Nat
  status : ResStatus
  reserved_at : Int
  expires_at : Option Int
  notified_at : Option Int
  queue_position : Nat
  priority : Int
  notes : String
deriving DecidableEq, Repr

/-- The database state the loan core reads and writes. -/
structure LibState where
  users : List User
  books : List Book
  loans : List Loan
  reservations : List Reservation
  nextLoanId : Nat
  nextResId : Nat
deriving DecidableEq, Repr

/-- Lookup `User.objects.get(id=uid)`. -/
def findUser (s : LibState) (uid : Nat) : Option User :=
  s.users.find? (fun u => u.uid == uid)

/-- Lookup `Book.objects.get(id=bid)`. -/
def findBook (s : LibState) (bid : Nat) : Option Book :=
  s.books.find? (fun b => b.bid == bid)

/-- Loan row lookup by primary key. -/
def findLoan (s : LibState) (lid : Nat) : Option Loan :=
  s.loans.find? (fun l => l.lid == lid)

/-- Reservation row lookup by primary key. -/
def findRes (s : LibState) (rid : Nat) : Option Reservation :=
  s.reservations.find? (fun r => r.rid == rid)

/-- Write back one book row (`book.save()`). -/
def updateBooks (f : Book → Book) (bid : Nat) (bs : List Book) : List Book :=
  bs.map (fun b => if b.bid == bid then f b else b)

/-- Write back one loan row (`loan.save()`). -/
def updateLoans (f : Loan → Loan) (lid : Nat) (ls : List Loan) : List Loan :=
  ls.map (fun l => if l.lid == lid then f l else l)

/-- Write back one reservation row (`reservation.save()`). -/
def updateRes (f : Reservation → Reservation) (rid : Nat)
    (rs : List Reservation) : List Reservation :=
  rs.map (fun r => if r.rid == rid then f r else r)

/-- Method `Loan.calculate_fine` (loans/models.py lines 229-240): when
`(return_date or today) > due_date` the fine is overwritten with
`overdue_days * FINE_PER_DAY`; otherwise the method returns without
touching `fine_amount`.  (The source's `if not self.due_date: return`
guard is vacuous here because `due_date` is a non-nullable field.) -/
def calculate_fine (l : Loan) (today : Int) : Loan :=
  let rd := l.return_date.getD today
  if rd > l.due_date then
    { l with fine_amount := (rd - l.due_date) * FINE_PER_DAY }
  else l

/-- Method `Loan.save` (loans/models.py lines 213-227) for a loan whose
`due_date` is already set: flip Active to Overdue when past due, then
recompute the fine for Overdue/Returned loans unless waived. -/
def loanSave (l : Loan) (today : Int) : Loan :=
  let l1 := if l.status = .active ∧ l.due_date < today
            then { l with status := .overdue } else l
  if (l1.status = .overdue ∨ l1.status = .returned) ∧ ¬ l1.fine_waived
  then calculate_fine l1 today else l1

/-- Number of the user's loans with `status == ACTIVE`
(loans/serializers.py lines 115-117). -/
def countActiveLoans (s : LibState) (uid : Nat) : Nat :=
  (s.loans.filter (fun l => l.user == uid && l.status == LoanStatus.active)).length

/-- The user already has an Active/Overdue loan for this book
(loans/serializers.py lines 124-128). -/
def hasActiveLoanFor (s : LibState) (uid bid : Nat) : Bool :=
  s.loans.any (fun l => l.user == uid && l.book == bid &&
    (l.status == LoanStatus.active || l.status == LoanStatus.overdue))

/-- The user has a loan with a positive, unpaid, unwaived fine
(loans/serializers.py lines 135-140). -/
def hasUnpaidFine (s : LibState) (uid : Nat) : Bool :=
  s.loans.any (fun l => l.user == uid && decide (l.fine_amount > 0) &&
    !l.fine_paid && !l.fine_waived)

/-- Validation errors raised by `LoanCreateSerializer.validate`
(loans/serializers.py lines 88-147), named per the spec's taxonomy. -/
inductive IssueErr where
  | userMissing | userInactive | bookMissing | bookUnavailable
  | loanLimitExceeded | duplicateActiveLoan | unpaidFineExists
deriving DecidableEq, Repr

/-- Method `LoanCreateSerializer.validate` (loans/serializers.py lines 88-147),
with the checks in source order: user exists and is active; book exists
and `available_copies > 0`; active-loan count below `MAX_BOOKS_PER_USER`;
no Active/Overdue loan of the same book; no unpaid non-waived fine. -/
def issueValidate (s : LibState) (uid bid : Nat) : Except IssueErr (User × Book) :=
  match findUser s uid with
  | none => .error .userMissing
  | some u =>
    if !u.accountActive then .error .userInactive
    else match findBook s bid with
    | none => .error .bookMissing
    | some b =>
      if b.available_copies ≤ 0 then .error .bookUnavailable
      else if countActiveLoans s uid ≥ MAX_BOOKS_PER_USER then .error .loanLimitExceeded
      else if hasActiveLoanFor s uid bid then .error .duplicateActiveLoan
      else if hasUnpaidFine s uid then .error .unpaidFineExists
      else .ok (u, b)

/-- A freshly constructed loan as `Loan.objects.create(user=..., book=...)`
builds it: status defaults to Active, counters to zero.  `due_date` is the
value computed by the caller (serializer) or by `Loan.save`'s
`loan_date + LOAN_DURATION_DAYS` defaulting branch (loans/models.py
lines 215-217) — both yield `loan_date + 14` when no due date is given. -/
def newLoan (lid uid bid : Nat) (today : Int) : Loan :=
  { lid := lid, user := uid, book := bid, status := .active,
    loan_date := today, due_date := today + LOAN_DURATION_DAYS,
    return_date := none, renewal_count := 0, renewal_history := [],
    fine_amount := 0, fine_paid := false, fine_waived := false, notes := "" }

/-- Method `LoanCreateSerializer.create` (loans/serializers.py lines 149-176):
create the loan (running `Loan.save`), then `book.available_copies -= 1`. -/
def issueCreate (s : LibState) (uid bid : Nat) (today : Int) : LibState × Nat :=
  let l := loanSave (newLoan s.nextLoanId uid bid today) today
  ({ s with
      loans := s.loans ++ [l],
      nextLoanId := s.nextLoanId + 1,
      books := updateBooks
        (fun b => { b with available_copies := b.available_copies - 1 }) bid s.books },
   s.nextLoanId)

/-- The Issue operation: `LoanCreateSerializer.validate` then `.create`.
On a validation error the serializer raises before any write, so the
state is returned unchanged. -/
def issueOp (s : LibState) (uid bid : Nat) (today : Int) :
    LibState × Except IssueErr Nat :=
  match issueValidate s uid bid with
  | .error e => (s, .error e)
  | .ok _ => let (s1, lid) := issueCreate s uid bid today; (s1, .ok lid)

/-- Method `Loan.return_book` (loans/models.py lines 275-291): set status
Returned and `return_date = today`; append condition notes; a positive
damage fine is added and flips the status to Damaged; then
`book.available_copies += 1` (unconditionally) and `loan.save()`. -/
def return_book (s : LibState) (lid : Nat) (today : Int)
    (condition : String) (damage_fine : Int) : LibState :=
  match findLoan s lid with
  | none => s
  | some l =>
    let l1 := { l with
      status := LoanStatus.returned,
      return_date := some today,
      notes := if condition = "" then l.notes
               else l.notes ++ "\nReturn condition: " ++ condition }
    let l2 := if damage_fine > 0
              then { l1 with
                      fine_amount := l1.fine_amount + damage_fine,
                      status := LoanStatus.damaged }
              else l1
    let s1 := { s with
      books := updateBooks
        (fun b => { b with available_copies := b.available_copies + 1 }) l.book s.books }
    { s1 with loans := updateLoans (fun _ => loanSave l2 today) lid s1.loans }

/-- Errors of the Return endpoint. `loanNotActive` is the 400 response
`'Loan is not active and cannot be returned'` — the spec's
`AlreadyReturned` failure mode. -/
inductive ReturnErr where
  | loanMissing | loanNotActive
deriving DecidableEq, Repr

/-- Endpoint `LoanViewSet.return_book` (loans/views/loan_views.py lines 236-253):
reject unless the loan's status is Active or Overdue, else run
`Loan.return_book`. -/
def returnBookView (s : LibState) (lid : Nat) (today : Int)
    (condition : String) (damage_fine : Int) : LibState × Except ReturnErr Unit :=
  match findLoan s lid with
  | none => (s, .error .loanMissing)
  | some l =>
    if l.status = .active ∨ l.status = .overdue then
      (return_book s lid today condition damage_fine, .ok ())
    else (s, .error .loanNotActive)

/-- A Pending reservation exists for this book
(loans/models.py lines 248-249). -/
def hasPendingReservation (s : LibState) (bid : Nat) : Bool :=
  s.reservations.any (fun r => r.book == bid && r.status == ResStatus.pending)

/-- Method `Loan.can_renew` (loans/models.py lines 242-250). -/
def can_renew (s : LibState) (l : Loan) (today : Int) : Bool :=
  l.status == LoanStatus.active &&
  decide (l.renewal_count < MAX_RENEWAL_COUNT) &&
  decide (l.due_date ≥ today) &&
  !hasPendingReservation s l.book

/-- Errors of the Renew operation: the single `ValueError("Loan cannot be
renewed")` of `Loan.renew` — the spec's `NotRenewable`. -/
inductive RenewErr where
  | loanMissing | notRenewable
deriving DecidableEq, Repr

/-- Method `Loan.renew` (loans/models.py lines 252-273): guard on `can_renew`,
then extend the due date, bump `renewal_count`, append a history entry
and save.  State is untouched when the guard fails. -/
def renewOp (s : LibState) (lid : Nat) (today : Int) (days : Option Int)
    (reason : String) : LibState × Except RenewErr Unit :=
  match findLoan s lid with
  | none => (s, .error .loanMissing)
  | some l =>
    if !can_renew s l today then (s, .error .notRenewable)
    else
      let d := days.getD LOAN_DURATION_DAYS
      let l1 := { l with
        due_date := l.due_date + d,
        renewal_count := l.renewal_count + 1,
        renewal_history := l.renewal_history ++
          [{ date := today, old_due_date := l.due_date,
             new_due_date := l.due_date + d, reason := reason,
             renewal_number := l.renewal_count + 1 }] }
      ({ s with loans := updateLoans (fun _ => loanSave l1 today) lid s.loans },
       .ok ())

/-- Aggregate `Max('queue_position')` over the book's Pending/Confirmed
reservations, `or 0` (loans/models.py lines 451-456). -/
def maxQueuePosition (s : LibState) (bid : Nat) : Nat :=
  (s.reservations.filter (fun r => r.book == bid &&
      (r.status == ResStatus.pending || r.status == ResStatus.confirmed))).foldl
    (fun m r => max m r.queue_position) 0

/-- Method `Reservation.save` (loans/models.py lines 442-458): default
`expires_at` to `now + RESERVATION_DURATION_HOURS` when unset; assign
`queue_position = max + 1` only when the current value is falsy
(`if not self.queue_position`), i.e. only when it is 0 — never for a
fresh reservation, whose field default is 1. -/
def reservationSave (s : LibState) (r : Reservation) (now : Int) : Reservation :=
  let r1 := if r.expires_at.isNone
            then { r with expires_at := some (now + RESERVATION_DURATION_HOURS) }
            else r
  if r1.queue_position = 0
  then { r1 with queue_position := maxQueuePosition s r1.book + 1 }
  else r1

/-- The user already has a Pending/Confirmed reservation for this book
(loans/serializers.py lines 341-344). -/
def hasActiveReservationFor (s : LibState) (uid bid : Nat) : Bool :=
  s.reservations.any (fun r => r.user == uid && r.book == bid &&
    (r.status == ResStatus.pending || r.status == ResStatus.confirmed))

/-- Validation errors raised by `ReservationCreateSerializer.validate`
(loans/serializers.py lines 311-362). -/
inductive ReserveErr where
  | userMissing | userInactive | bookMissing | bookStillAvailable
  | duplicateActiveReservation | duplicateActiveLoan
deriving DecidableEq, Repr

/-- The Reserve operation: `ReservationCreateSerializer.validate` then
`.create` (loans/serializers.py lines 311-378).  The created instance
carries the field defaults `status=Pending`, `queue_position=1`, and
`Reservation.save` then fills `expires_at`. -/
def reserveOp (s : LibState) (uid bid : Nat) (now : Int) (priority : Int) :
    LibState × Except ReserveErr Nat :=
  match findUser s uid with
  | none => (s, .error .userMissing)
  | some u =>
    if !u.accountActive then (s, .error .userInactive)
    else match findBook s bid with
    | none => (s, .error .bookMissing)
    | some b =>
      if b.available_copies > 0 then (s, .error .bookStillAvailable)
      else if hasActiveReservationFor s uid bid then
        (s, .error .duplicateActiveReservation)
      else if hasActiveLoanFor s uid bid then
        (s, .error .duplicateActiveLoan)
      else
        let r : Reservation :=
          { rid := s.nextResId, user := uid, book := bid,
            status := .pending, reserved_at := now, expires_at := none,
            notified_at := none, queue_position := 1, priority := priority,
            notes := "" }
        let r := reservationSave s r now
        ({ s with reservations := s.reservations ++ [r],
                  nextResId := s.nextResId + 1 },
         .ok r.rid)

/-- Method `Reservation.confirm` (loans/models.py lines 460-467): set status
Confirmed, record `notified_at`, extend `expires_at` to the pickup
window, save.  The method has no precondition check. -/
def confirmOp (s : LibState) (rid : Nat) (now : Int) : LibState :=
  match findRes s rid with
  | none => s
  | some r =>
    let r1 := { r with
      status := ResStatus.confirmed,
      notified_at := some now,
      expires_at := some (now + RESERVATION_PICKUP_HOURS) }
    let r2 := reservationSave s r1 now
    { s with reservations := updateRes (fun _ => r2) rid s.reservations }

/-- The trailing-queue compaction `queryset.update(queue_position =
F('queue_position') - 1)` applied after Fulfill/Cancel
(loans/models.py lines 489-494 and 504-509), as an element-wise map:
decrement the position of same-book Pending/Confirmed reservations
strictly after position `p`. -/
def compactAfter (bid : Nat) (p : Nat) (r : Reservation) : Reservation :=
  if r.book == bid && decide (r.queue_position > p) &&
     (r.status == ResStatus.pending || r.status == ResStatus.confirmed)
  then { r with queue_position := r.queue_position - 1 }
  else r

/-- Errors of Fulfill: the `ValueError("Reservation must be confirmed
before fulfillment")` guard. -/
inductive FulfillErr where
  | resMissing | notConfirmed
deriving DecidableEq, Repr

/-- Method `Reservation.fulfill` (loans/models.py lines 469-496): require status
Confirmed; create a Loan for the reservation's user/book (running
`Loan.save`, which computes the due date); set status Fulfilled and save;
`book.available_copies -= 1` with no availability check; compact the
trailing queue. -/
def fulfillOp (s : LibState) (rid : Nat) (now today : Int) :
    LibState × Except FulfillErr Nat :=
  match findRes s rid with
  | none => (s, .error .resMissing)
  | some r =>
    if r.status = .confirmed then
      let l := loanSave (newLoan s.nextLoanId r.user r.book today) today
      let s1 := { s with loans := s.loans ++ [l], nextLoanId := s.nextLoanId + 1 }
      let r2 := reservationSave s1 { r with status := ResStatus.fulfilled } now
      let s2 := { s1 with reservations := updateRes (fun _ => r2) rid s1.reservations }
      let s3 := { s2 with
        books := updateBooks
          (fun b => { b with available_copies := b.available_copies - 1 }) r.book s2.books }
      ({ s3 with reservations :=
          s3.reservations.map (compactAfter r.book r.queue_position) },
       .ok l.lid)
    else (s, .error .notConfirmed)

/-- Method `Reservation.cancel` (loans/models.py lines 498-509): set status
Cancelled and append the reason to the notes, save, then compact the
trailing queue.  There is no status guard. -/
def cancelOp (s : LibState) (rid : Nat) (now : Int) (reason : String) : LibState :=
  match findRes s rid with
  | none => s
  | some r =>
    let r1 := { r with
      status := ResStatus.cancelled,
      notes := r.notes ++ "\nCancelled: " ++ reason }
    let r2 := reservationSave s r1 now
    let s1 := { s with reservations := updateRes (fun _ => r2) rid s.reservations }
    { s1 with reservations :=
        s1.reservations.map (compactAfter r.book r.queue_position) }

/-! ### Support lemmas -/

theorem find?_map_of_pred {α : Type} (f : α → α) (q : α → Bool)
    (h : ∀ a, q (f a) = q a) (l : List α) :
    (l.map f).find? q = (l.find? q).map f := by
  rw [List.find?_map]
  have hqf : q ∘ f = q := funext h
  rw [hqf]

theorem find?_append_of_none {α : Type} (q : α → Bool) (l₁ l₂ : List α)
    (h : l₁.find? q = none) : (l₁ ++ l₂).find? q = l₂.find? q := by
  simp [List.find?_append, h]

theorem findBook_update_self (f : Book → Book) (bid : Nat) (bs : List Book)
    (hf : ∀ b, (f b).bid = b.bid) :
    (updateBooks f bid bs).find? (fun b => b.bid == bid) =
      (bs.find? (fun b => b.bid == bid)).map f := by
  unfold updateBooks
  rw [find?_map_of_pred (fun b => if b.bid == bid then f b else b) _
      (fun a => by cases hh : a.bid == bid <;> simp [hh, hf])]
  cases hfind : bs.find? (fun b => b.bid == bid) with
  | none => rfl
  | some b =>
    have hb : b.bid = bid := by simpa using List.find?_some hfind
    simp [hb]

theorem findRes_list_map (g : Reservation → Reservation)
    (hg : ∀ x, (g x).rid = x.rid) (rid' : Nat) (rs : List Reservation) :
    (rs.map g).find? (fun x => x.rid == rid') =
      (rs.find? (fun x => x.rid == rid')).map g :=
  find?_map_of_pred g _ (fun a => by rw [hg]) rs

theorem reservationSave_eq_self (s : LibState) (r : Reservation) (now : Int)
    (he : r.expires_at.isSome) (hq : r.queue_position ≠ 0) :
    reservationSave s r now = r := by
  obtain ⟨v, hv⟩ := Option.isSome_iff_exists.mp he
  simp [reservationSave, hv, hq]

theorem loanSave_newLoan (lid uid bid : Nat) (today : Int) :
    loanSave (newLoan lid uid bid today) today = newLoan lid uid bid today := by
  have h : ¬ (today + LOAN_DURATION_DAYS < today) := by
    simp [LOAN_DURATION_DAYS]
  simp [loanSave, newLoan, h]

/-! ### Concrete instances used by the settled claims -/

/-- A state satisfying `0 ≤ available_copies ≤ total_copies` that already
holds a Confirmed reservation on the fully-borrowed book. -/
def stateC1 : LibState :=
  { users := [⟨1, true⟩],
    books := [⟨1, 1, 0⟩],
    loans := [],
    reservations :=
      [{ rid := 5, user := 1, book := 1, status := .confirmed,
         reserved_at := 0, expires_at := some 55, notified_at := some 0,
         queue_position := 1, priority := 0, notes := "" }],
    nextLoanId := 10, nextResId := 6 }

/-- Two active users and a fully-borrowed book, before any reservation. -/
def stateC2 : LibState :=
  { users := [⟨1, true⟩, ⟨2, true⟩],
    books := [⟨1, 1, 0⟩],
    loans := [], reservations := [],
    nextLoanId := 0, nextResId := 0 }

/-- State after the first Reserve call (user 1). -/
def stateC2a : LibState := (reserveOp stateC2 1 1 0 0).1

/-- State after the second Reserve call (user 2). -/
def stateC2b : LibState := (reserveOp stateC2a 2 1 1 0).1

/-- Queue positions of the book's Pending/Confirmed reservations. -/
def pcPositions (s : LibState) (bid : Nat) : List Nat :=
  (s.reservations.filter (fun r => r.book == bid &&
      (r.status == ResStatus.pending || r.status == ResStatus.confirmed))).map
    Reservation.queue_position

/-! ### Claims -/

/-- C1: the spec claims `0 ≤ available_copies ≤ total_copies` is preserved
by every Issue/Return/Fulfill sequence from a state satisfying it.  The
code violates this: `Reservation.fulfill` decrements `available_copies`
with no availability check, so fulfilling a Confirmed reservation of a
book with `available_copies = 0` (a state satisfying `0 ≤ 0 ≤ 1`) drives
the counter to `-1`, contradicting the claimed lower bound (and the
field's own `PositiveIntegerField` declaration). -/
theorem claim_C1 :
    (0 ≤ (1 : Int) ∧ (0 : Int) ≤ 0 ∧ (0 : Int) ≤ 1) ∧
    (findBook stateC1 1).map Book.available_copies = some 0 ∧
    (fulfillOp stateC1 5 8 8).2 = Except.ok 10 ∧
    (findBook (fulfillOp stateC1 5 8 8).1 1).map Book.available_copies =
      some (-1) := by
  refine ⟨by norm_num, rfl, rfl, rfl⟩

/-- C2: the spec claims the multiset of queue positions over a book's
Pending/Confirmed reservations is always `{1, …, N}`.  The code violates
this at the second Reserve already: `queue_position` has field default 1
(applied at construction), so `Reservation.save`'s `if not
self.queue_position` branch never assigns `max + 1`, and both
reservations end up at position 1 — `{1, 1}` instead of `{1, 2}`. -/
theorem claim_C2 :
    pcPositions stateC2b 1 = [1, 1] ∧
    ¬ (pcPositions stateC2b 1).Perm [1, 2] := by
  refine ⟨rfl, by decide⟩

/-- C3: the spec claims a new reservation's `queue_position` equals
`max(existing positions) + 1`, so the second of two Reserve calls on a
fully-borrowed book should get position 2.  In the code the second
reservation (rid 1, created in `stateC2b`) gets position 1, although
`max + 1` over `stateC2a` is 2. -/
theorem claim_C3 :
    (findRes stateC2b 1).map Reservation.queue_position = some 1 ∧
    maxQueuePosition stateC2a 1 + 1 = 2 ∧ (1 : Nat) ≠ 2 := by
  refine ⟨rfl, rfl, by decide⟩

/-- C4: Return on a loan whose status is already Returned is rejected by
the Return endpoint (the 400 guard in `LoanViewSet.return_book`) and the
state — in particular the book's `available_copies` — is unchanged. -/
theorem claim_C4 (s : LibState) (lid : Nat) (today : Int) (cond : String)
    (damage : Int) (l : Loan) (hl : findLoan s lid = some l)
    (hst : l.status = LoanStatus.returned) :
    returnBookView s lid today cond damage =
      (s, Except.error ReturnErr.loanNotActive) := by
  unfold returnBookView
  rw [hl]
  simp [hst]

/-- An already-returned loan. -/
def loanC4 : Loan :=
  { lid := 1, user := 1, book := 1, status := .returned, loan_date := 0,
    due_date := 14, return_date := some 10, renewal_count := 0,
    renewal_history := [], fine_amount := 0, fine_paid := false,
    fine_waived := false, notes := "" }

/-- State holding the already-returned loan `loanC4`. -/
def stateC4 : LibState :=
  { users := [⟨1, true⟩], books := [⟨1, 1, 1⟩], loans := [loanC4],
    reservations := [], nextLoanId := 2, nextResId := 0 }

/-- Witness for C4 at a concrete already-returned loan. -/
theorem claim_C4_witness :
    findLoan stateC4 1 = some loanC4 ∧
    returnBookView stateC4 1 20 "" 0 =
      (stateC4, Except.error ReturnErr.loanNotActive) :=
  ⟨rfl, claim_C4 stateC4 1 20 "" 0 loanC4 rfl rfl⟩

/-- A non-waived loan returned exactly on its due date but carrying a
pre-existing fine of 500 (e.g. a damage fine). -/
def loanC5 : Loan :=
  { lid := 1, user := 1, book := 1, status := .returned, loan_date := 0,
    due_date := 10, return_date := some 10, renewal_count := 0,
    renewal_history := [], fine_amount := 500, fine_paid := false,
    fine_waived := false, notes := "" }

/-- C5 counterexample: the spec's formula
`max(0, (return_date or today) - due_date) * FINE_PER_DAY` yields 0 for
`loanC5`, but `calculate_fine` only overwrites the fine when the loan is
overdue and otherwise leaves the stored `fine_amount` (here 500)
untouched, so the computed fine is not the claimed value. -/
theorem claim_C5_cex :
    loanC5.fine_waived = false ∧
    max 0 (loanC5.return_date.getD 20 - loanC5.due_date) * FINE_PER_DAY = 0 ∧
    (calculate_fine loanC5 20).fine_amount = 500 ∧
    (calculate_fine loanC5 20).fine_amount ≠
      max 0 (loanC5.return_date.getD 20 - loanC5.due_date) * FINE_PER_DAY := by
  refine ⟨rfl, by norm_num [loanC5, FINE_PER_DAY], rfl, by norm_num [loanC5, calculate_fine, FINE_PER_DAY]⟩

/-- C5 (amended): `calculate_fine` is a pure function of the loan and a
fixed today; when `(return_date or today) > due_date` it sets the fine to
`overdue_days * FINE_PER_DAY`, and otherwise it leaves `fine_amount`
unchanged (it does not reset it to 0); a waived loan's fine is not
recomputed by `Loan.save`. -/
theorem claim_C5_amended (l : Loan) (today : Int) :
    ((calculate_fine l today).fine_amount =
      if l.due_date < l.return_date.getD today
      then (l.return_date.getD today - l.due_date) * FINE_PER_DAY
      else l.fine_amount) ∧
    (l.fine_waived = true → (loanSave l today).fine_amount = l.fine_amount) := by
  constructor
  · unfold calculate_fine
    by_cases h : l.due_date < l.return_date.getD today <;> simp [h]
  · intro hw
    unfold loanSave
    by_cases h : l.status = LoanStatus.active ∧ l.due_date < today <;>
      simp [h, hw]

/-- A loan ten days overdue today (due date −10 with today 0). -/
def loanB : Loan :=
  { lid := 2, user := 1, book := 1, status := .overdue, loan_date := -24,
    due_date := -10, return_date := none, renewal_count := 0,
    renewal_history := [], fine_amount := 0, fine_paid := false,
    fine_waived := false, notes := "" }

/-- A waived loan carrying a fine of 7. -/
def loanW : Loan :=
  { lid := 3, user := 1, book := 1, status := .returned, loan_date := 0,
    due_date := 10, return_date := some 30, renewal_count := 0,
    renewal_history := [], fine_amount := 7, fine_paid := false,
    fine_waived := true, notes := "" }

/-- Witness for C5 (amended): scenario B — ten days overdue at 1000 per
day gives a fine of 10000 — and the waived loan keeps its fine. -/
theorem claim_C5_witness :
    (calculate_fine loanB 0).fine_amount = 10000 ∧
    (loanSave loanW 0).fine_amount = 7 := by
  constructor
  · have h := (claim_C5_amended loanB 0).1
    rw [h]
    norm_num [loanB, FINE_PER_DAY]
  · exact (claim_C5_amended loanW 0).2 rfl

/-- Boolean `can_renew` unfolded to its four propositional conjuncts. -/
theorem can_renew_iff (s : LibState) (l : Loan) (today : Int) :
    can_renew s l today = true ↔
      (l.status = LoanStatus.active ∧ l.renewal_count < MAX_RENEWAL_COUNT ∧
       today ≤ l.due_date ∧ hasPendingReservation s l.book = false) := by
  simp [can_renew, Bool.and_eq_true, decide_eq_true_eq, Bool.not_eq_true',
        and_assoc, ge_iff_le]

/-- C6: Renew succeeds if and only if the loan is Active, below the
renewal cap, not yet past due, and no Pending reservation exists on its
book; when any precondition fails the operation returns the single error
`notRenewable` (the `ValueError` of `Loan.renew`) and the state is
unchanged. -/
theorem claim_C6 (s : LibState) (lid : Nat) (today : Int) (days : Option Int)
    (reason : String) (l : Loan) (hl : findLoan s lid = some l) :
    ((renewOp s lid today days reason).2 = Except.ok () ↔
      (l.status = LoanStatus.active ∧ l.renewal_count < MAX_RENEWAL_COUNT ∧
       today ≤ l.due_date ∧ hasPendingReservation s l.book = false)) ∧
    (¬ (l.status = LoanStatus.active ∧ l.renewal_count < MAX_RENEWAL_COUNT ∧
        today ≤ l.due_date ∧ hasPendingReservation s l.book = false) →
      renewOp s lid today days reason = (s, Except.error RenewErr.notRenewable)) := by
  have hiff := can_renew_iff s l today
  unfold renewOp
  rw [hl]
  cases hcr : can_renew s l today with
  | false =>
    rw [hcr] at hiff
    have hnp : ¬ (l.status = LoanStatus.active ∧
        l.renewal_count < MAX_RENEWAL_COUNT ∧ today ≤ l.due_date ∧
        hasPendingReservation s l.book = false) := by
      intro hp
      exact absurd (hiff.mpr hp) (by simp)
    refine ⟨?_, fun _ => by simp [hcr]⟩
    simp [hcr, hnp]
  | true =>
    rw [hcr] at hiff
    have hp := hiff.mp rfl
    refine ⟨?_, fun hnp => absurd hp hnp⟩
    simpa [hcr] using hp

/-- An active loan that has exhausted its two renewals. -/
def loanC6 : Loan :=
  { lid := 1, user := 1, book := 1, status := .active, loan_date := 0,
    due_date := 30, return_date := none, renewal_count := 2,
    renewal_history := [], fine_amount := 0, fine_paid := false,
    fine_waived := false, notes := "" }

/-- State holding `loanC6` (no reservations pending). -/
def stateC6 : LibState :=
  { users := [⟨1, true⟩], books := [⟨1, 1, 0⟩], loans := [loanC6],
    reservations := [], nextLoanId := 2, nextResId := 0 }

/-- Witness for C6: renewal_count = 2 with MAX_RENEWAL_COUNT = 2 makes
Renew fail with `notRenewable` and leave the state unchanged. -/
theorem claim_C6_witness :
    findLoan stateC6 1 = some loanC6 ∧
    renewOp stateC6 1 0 none "User request" =
      (stateC6, Except.error RenewErr.notRenewable) :=
  ⟨rfl, (claim_C6 stateC6 1 0 none "User request" loanC6 rfl).2 (by decide)⟩

/-- C7: Issue succeeds exactly when the user is active, the book has
copies available, the user is under the loan limit, has no Active/Overdue
loan of the same book, and has no unpaid non-waived fine; each violated
precondition (first in the serializer's check order) yields its
corresponding validation error, and every error leaves the state
unchanged. -/
theorem claim_C7 (s : LibState) (uid bid : Nat) (today : Int) (u : User)
    (b : Book) (hu : findUser s uid = some u) (hb : findBook s bid = some b) :
    ((∃ lid, (issueOp s uid bid today).2 = Except.ok lid) ↔
      (u.accountActive = true ∧ 0 < b.available_copies ∧
       countActiveLoans s uid < MAX_BOOKS_PER_USER ∧
       hasActiveLoanFor s uid bid = false ∧ hasUnpaidFine s uid = false)) ∧
    (u.accountActive = false →
      issueOp s uid bid today = (s, Except.error IssueErr.userInactive)) ∧
    (u.accountActive = true → b.available_copies ≤ 0 →
      issueOp s uid bid today = (s, Except.error IssueErr.bookUnavailable)) ∧
    (u.accountActive = true → 0 < b.available_copies →
      MAX_BOOKS_PER_USER ≤ countActiveLoans s uid →
      issueOp s uid bid today = (s, Except.error IssueErr.loanLimitExceeded)) ∧
    (u.accountActive = true → 0 < b.available_copies →
      countActiveLoans s uid < MAX_BOOKS_PER_USER →
      hasActiveLoanFor s uid bid = true →
      issueOp s uid bid today = (s, Except.error IssueErr.duplicateActiveLoan)) ∧
    (u.accountActive = true → 0 < b.available_copies →
      countActiveLoans s uid < MAX_BOOKS_PER_USER →
      hasActiveLoanFor s uid bid = false → hasUnpaidFine s uid = true →
      issueOp s uid bid today = (s, Except.error IssueErr.unpaidFineExists)) ∧
    (∀ e, (issueOp s uid bid today).2 = Except.error e →
      (issueOp s uid bid today).1 = s) := by
  unfold issueOp issueValidate issueCreate
  rw [hu, hb]
  simp only [← not_le]
  by_cases hA : u.accountActive = true <;>
  by_cases hB : b.available_copies ≤ 0 <;>
  by_cases hC : MAX_BOOKS_PER_USER ≤ countActiveLoans s uid <;>
  by_cases hD : hasActiveLoanFor s uid bid = true <;>
  by_cases hE : hasUnpaidFine s uid = true <;>
  simp_all [Bool.not_eq_true, -not_le, -not_lt, -Nat.not_le, -Nat.not_lt]

/-- A book with one copy and two active users, nothing borrowed yet. -/
def stateC7 : LibState :=
  { users := [⟨1, true⟩, ⟨2, true⟩], books := [⟨1, 1, 1⟩], loans := [],
    reservations := [], nextLoanId := 0, nextResId := 0 }

/-- State after user 1 borrows the single copy. -/
def stateC7a : LibState := (issueOp stateC7 1 1 0).1

/-- Witness for C7, scenario A: with `total_copies = 1` and
`available_copies = 1`, the first Issue succeeds and leaves
`available_copies = 0`, and a second Issue by another user fails with
`bookUnavailable` and changes nothing. -/
theorem claim_C7_witness :
    (issueOp stateC7 1 1 0).2 = Except.ok 0 ∧
    (findBook stateC7a 1).map Book.available_copies = some 0 ∧
    issueOp stateC7a 2 1 0 = (stateC7a, Except.error IssueErr.bookUnavailable) :=
  ⟨rfl, rfl,
    (claim_C7 stateC7a 2 1 0 ⟨2, true⟩ ⟨1, 1, 0⟩ rfl rfl).2.2.1 rfl (by decide)⟩

/-- C9: when Issue succeeds, Returning the resulting loan (with no other
mutation in between) restores the book's `available_copies` to its
pre-Issue value.  The freshness hypothesis says the new loan's id is not
already taken in the starting state. -/
theorem claim_C9 (s : LibState) (uid bid : Nat) (today todayR : Int)
    (s₁ : LibState) (lid : Nat)
    (hfresh : ∀ l ∈ s.loans, l.lid ≠ s.nextLoanId)
    (h : issueOp s uid bid today = (s₁, Except.ok lid)) :
    (findBook (returnBookView s₁ lid todayR "" 0).1 bid).map Book.available_copies =
      (findBook s bid).map Book.available_copies := by
  obtain ⟨ub, hvok⟩ : ∃ ub, issueValidate s uid bid = Except.ok ub := by
    cases hvv : issueValidate s uid bid with
    | error e => simp [issueOp, hvv] at h
    | ok ub => exact ⟨ub, rfl⟩
  have h' : (issueCreate s uid bid today).1 = s₁ ∧ s.nextLoanId = lid := by
    simpa [issueOp, hvok, issueCreate] using h
  obtain ⟨hs₁, hlid⟩ := h'
  subst hs₁ hlid
  have hnone : s.loans.find? (fun l => l.lid == s.nextLoanId) = none :=
    List.find?_eq_none.mpr (fun l hl => by simpa using hfresh l hl)
  have hfind :
      findLoan (issueCreate s uid bid today).1 s.nextLoanId =
        some (newLoan s.nextLoanId uid bid today) := by
    simp only [issueCreate, loanSave_newLoan, findLoan]
    rw [find?_append_of_none _ _ _ hnone]
    simp [newLoan]
  have hstatus : (newLoan s.nextLoanId uid bid today).status = LoanStatus.active := rfl
  unfold returnBookView
  rw [hfind]
  simp only [hstatus, true_or, if_true]
  unfold return_book
  rw [hfind]
  simp only [newLoan]
  unfold findBook
  simp only [issueCreate]
  rw [findBook_update_self
        (fun b => { b with available_copies := b.available_copies + 1 }) bid _
        (fun b => rfl),
      findBook_update_self
        (fun b => { b with available_copies := b.available_copies - 1 }) bid _
        (fun b => rfl)]
  cases s.books.find? (fun b => b.bid == bid) with
  | none => rfl
  | some b => simp

/-- Witness for C9 on the concrete scenario-A state: Issue then Return
leaves `available_copies` at its original value 1. -/
theorem claim_C9_witness :
    (∀ l ∈ stateC7.loans, l.lid ≠ stateC7.nextLoanId) ∧
    issueOp stateC7 1 1 0 = (stateC7a, Except.ok 0) ∧
    (findBook (returnBookView stateC7a 0 3 "" 0).1 1).map Book.available_copies =
      (findBook stateC7 1).map Book.available_copies :=
  ⟨by simp [stateC7], rfl, claim_C9 stateC7 1 1 0 3 stateC7a 0 (by simp [stateC7]) rfl⟩

theorem compactAfter_rid (bid p : Nat) (x : Reservation) :
    (compactAfter bid p x).rid = x.rid := by
  unfold compactAfter; split <;> rfl

theorem compactAfter_status (bid p : Nat) (x : Reservation) :
    (compactAfter bid p x).status = x.status := by
  unfold compactAfter; split <;> rfl

theorem compactAfter_pos (bid p : Nat) (x : Reservation) :
    (compactAfter bid p x).queue_position =
      if x.book = bid ∧ p < x.queue_position ∧
         (x.status = ResStatus.pending ∨ x.status = ResStatus.confirmed)
      then x.queue_position - 1 else x.queue_position := by
  have hbool : (x.book == bid && decide (x.queue_position > p) &&
      (x.status == ResStatus.pending || x.status == ResStatus.confirmed)) = true ↔
      (x.book = bid ∧ p < x.queue_position ∧
       (x.status = ResStatus.pending ∨ x.status = ResStatus.confirmed)) := by
    simp [Bool.and_eq_true, Bool.or_eq_true, beq_iff_eq, decide_eq_true_eq,
          and_assoc]
  unfold compactAfter
  by_cases h : x.book = bid ∧ p < x.queue_position ∧
      (x.status = ResStatus.pending ∨ x.status = ResStatus.confirmed)
  · rw [if_pos (hbool.mpr h), if_pos h]
  · rw [if_neg (fun hh => h (hbool.mp hh)), if_neg h]

/-- Reservation lookup after replacing row `rid` by `rf` and running the
trailing compaction, reduced to a lookup in the original list. -/
theorem findRes_after_replace_compact (rs : List Reservation) (rid rid' : Nat)
    (rf : Reservation) (hrf : rf.rid = rid) (b p : Nat) :
    ((updateRes (fun _ => rf) rid rs).map (compactAfter b p)).find?
        (fun x => x.rid == rid') =
      (rs.find? (fun x => x.rid == rid')).map
        (fun x => compactAfter b p (if x.rid == rid then rf else x)) := by
  unfold updateRes
  rw [List.map_map]
  refine find?_map_of_pred _ _ (fun a => ?_) rs
  simp only [Function.comp_apply, compactAfter_rid]
  by_cases hx : (a.rid == rid) = true
  · have ha : a.rid = rid := by simpa using hx
    rw [if_pos hx, hrf, ha]
  · rw [if_neg hx]

/-- C8: Fulfill requires status Confirmed (otherwise it fails and changes
nothing); on success it appends exactly one new Loan for the
reservation's user and book, decrements the book's `available_copies` by
exactly one, marks the reservation Fulfilled, and decrements the
`queue_position` of exactly the same-book trailing Pending/Confirmed
reservations, leaving every other reservation's position unchanged. -/
theorem claim_C8 (s : LibState) (rid : Nat) (now today : Int) (r : Reservation)
    (hr : findRes s rid = some r) (hq : r.queue_position ≠ 0)
    (he : r.expires_at.isSome = true) :
    (r.status ≠ ResStatus.confirmed →
      fulfillOp s rid now today = (s, Except.error FulfillErr.notConfirmed)) ∧
    (r.status = ResStatus.confirmed →
      (fulfillOp s rid now today).2 = Except.ok s.nextLoanId ∧
      (fulfillOp s rid now today).1.loans =
        s.loans ++ [newLoan s.nextLoanId r.user r.book today] ∧
      (findBook (fulfillOp s rid now today).1 r.book).map Book.available_copies =
        (findBook s r.book).map (fun b => b.available_copies - 1) ∧
      (findRes (fulfillOp s rid now today).1 rid).map Reservation.status =
        some ResStatus.fulfilled ∧
      (∀ rid' r', findRes s rid' = some r' →
        (findRes (fulfillOp s rid now today).1 rid').map
            Reservation.queue_position =
          some (if r'.book = r.book ∧
                   r.queue_position < r'.queue_position ∧
                   (r'.status = ResStatus.pending ∨
                    r'.status = ResStatus.confirmed)
                then r'.queue_position - 1 else r'.queue_position))) := by
  have hrid : r.rid = rid := by simpa using List.find?_some hr
  constructor
  · intro hns
    simp only [fulfillOp, hr]
    rw [if_neg hns]
  · intro hst
    have hsave : ∀ s' : LibState,
        reservationSave s' { r with status := ResStatus.fulfilled } now =
          { r with status := ResStatus.fulfilled } :=
      fun s' => reservationSave_eq_self s' _ now (by simpa using he)
        (by simpa using hq)
    simp only [fulfillOp, hr]
    rw [if_pos hst]
    simp only [loanSave_newLoan, hsave]
    refine ⟨by trivial, by trivial, ?_, ?_, ?_⟩
    · show ((updateBooks
          (fun b => { b with available_copies := b.available_copies - 1 })
          r.book s.books).find? (fun b => b.bid == r.book)).map
            Book.available_copies =
          (findBook s r.book).map (fun b => b.available_copies - 1)
      rw [findBook_update_self
            (fun b => { b with available_copies := b.available_copies - 1 })
            r.book _ (fun b => rfl)]
      unfold findBook
      cases s.books.find? (fun b => b.bid == r.book) with
      | none => rfl
      | some b => rfl
    · show (((updateRes (fun _ => { r with status := ResStatus.fulfilled }) rid
          s.reservations).map
            (compactAfter r.book r.queue_position)).find?
              (fun x => x.rid == rid)).map Reservation.status =
          some ResStatus.fulfilled
      rw [findRes_after_replace_compact s.reservations rid rid
            ({ r with status := ResStatus.fulfilled }) hrid
            r.book r.queue_position]
      unfold findRes at hr
      rw [hr]
      simp [hrid, compactAfter_status]
    · intro rid' r' hfind'
      have hrid' : r'.rid = rid' := by simpa using List.find?_some hfind'
      show (((updateRes (fun _ => { r with status := ResStatus.fulfilled }) rid
          s.reservations).map
            (compactAfter r.book r.queue_position)).find?
              (fun x => x.rid == rid')).map Reservation.queue_position =
          some _
      rw [findRes_after_replace_compact s.reservations rid rid'
            ({ r with status := ResStatus.fulfilled }) hrid
            r.book r.queue_position]
      unfold findRes at hfind'
      rw [hfind']
      by_cases hcase : rid' = rid
      · subst hcase
        have hr' : r' = r := by
          unfold findRes at hr
          rw [hr] at hfind'
          exact (Option.some.inj hfind').symm
        subst hr'
        simp [hrid, compactAfter_pos]
      · simp [hrid', hcase, compactAfter_pos]

/-- Witness for C8 on the concrete state `stateC1`: fulfilling the
Confirmed reservation yields the new loan id and marks it Fulfilled. -/
theorem claim_C8_witness :
    (fulfillOp stateC1 5 8 8).2 = Except.ok stateC1.nextLoanId ∧
    (findRes (fulfillOp stateC1 5 8 8).1 5).map Reservation.status =
      some ResStatus.fulfilled := by
  have h := claim_C8 stateC1 5 8 8
      { rid := 5, user := 1, book := 1, status := .confirmed,
        reserved_at := 0, expires_at := some 55, notified_at := some 0,
        queue_position := 1, priority := 0, notes := "" } rfl (by decide) rfl
  exact ⟨(h.2 rfl).1, (h.2 rfl).2.2.2.1⟩

theorem compactAfter_book (bid p : Nat) (x : Reservation) :
    (compactAfter bid p x).book = x.book := by
  unfold compactAfter; split <;> rfl

/-- The cancelled copy of a reservation, as written by
`Reservation.cancel` (status Cancelled, reason appended to the notes). -/
def cancelledRes (r : Reservation) (reason : String) : Reservation :=
  { r with
    status := ResStatus.cancelled,
    notes := r.notes ++ "\nCancelled: " ++ reason }

theorem cancelledRes_book (r : Reservation) (reason : String) :
    (cancelledRes r reason).book = r.book := rfl

theorem cancelledRes_pos (r : Reservation) (reason : String) :
    (cancelledRes r reason).queue_position = r.queue_position := rfl

theorem cancelledRes_rid (r : Reservation) (reason : String) :
    (cancelledRes r reason).rid = r.rid := rfl

/-- Result state of `Reservation.cancel` when the reservation exists and
its `expires_at`/`queue_position` are already set (so `save` is the
identity on it). -/
theorem cancelOp_eq (s : LibState) (rid : Nat) (now : Int) (reason : String)
    (r : Reservation) (hr : findRes s rid = some r)
    (hq : r.queue_position ≠ 0) (he : r.expires_at.isSome = true) :
    cancelOp s rid now reason =
      { s with
        reservations :=
          (updateRes (fun _ => cancelledRes r reason) rid s.reservations).map
            (compactAfter r.book r.queue_position) } := by
  have hs := reservationSave_eq_self s (cancelledRes r reason) now
      (by simpa [cancelledRes] using he) (by simpa [cancelledRes] using hq)
  simp only [cancelledRes] at hs ⊢
  simp only [cancelOp, hr, hs]

/-- Pending reservation at position 1 (rid 10) on book 1. -/
def resD1 : Reservation :=
  { rid := 10, user := 1, book := 1, status := .pending, reserved_at := 0,
    expires_at := some 24, notified_at := none, queue_position := 1,
    priority := 0, notes := "" }

/-- Pending reservation at position 2 (rid 11) on book 1, directly behind
`resD1`. -/
def resD2 : Reservation :=
  { rid := 11, user := 2, book := 1, status := .pending, reserved_at := 1,
    expires_at := some 24, notified_at := none, queue_position := 2,
    priority := 0, notes := "" }

/-- A queue of two pending reservations on a fully-borrowed book. -/
def stateC10 : LibState :=
  { users := [⟨1, true⟩, ⟨2, true⟩], books := [⟨1, 1, 0⟩], loans := [],
    reservations := [resD1, resD2], nextLoanId := 0, nextResId := 20 }

/-- C10 counterexample: cancelling `resD1` (position 1) twice moves the
trailing reservation `resD2` from position 2 to position 1 after the
first cancel, and the second cancel leaves it at 1 — it is decremented by
1 in total, not by 2 as the claim states (2 − 2 = 0). -/
theorem claim_C10_cex :
    (findRes (cancelOp (cancelOp stateC10 10 0 "dup") 10 0 "dup") 11).map
        Reservation.queue_position = some 1 ∧ (1 : Nat) ≠ 2 - 2 := by
  refine ⟨rfl, by decide⟩

/-- C10 (amended): `cancel` has no status guard, so a second cancel
re-runs the status write and the trailing compaction; but the compaction
only decrements positions still strictly greater than the cancelled
reservation's position, so after two cancels a same-book
Pending/Confirmed reservation initially at position `q > p` (`p` the
cancelled reservation's position) ends at `q − 2` when `q ≥ p + 2` and at
`q − 1` (i.e. `p`) when `q = p + 1`: the immediate successor is
decremented once, not twice. -/
theorem claim_C10_amended (s : LibState) (rid rid' : Nat) (now now' : Int)
    (reason reason' : String) (r r' : Reservation)
    (hr : findRes s rid = some r) (hq : r.queue_position ≠ 0)
    (he : r.expires_at.isSome = true)
    (hr' : findRes s rid' = some r')
    (hbook : r'.book = r.book)
    (hst : r'.status = ResStatus.pending ∨ r'.status = ResStatus.confirmed)
    (hgt : r.queue_position < r'.queue_position) :
    (findRes (cancelOp (cancelOp s rid now reason) rid now' reason') rid').map
        Reservation.queue_position =
      some (if r.queue_position + 1 < r'.queue_position
            then r'.queue_position - 2 else r'.queue_position - 1) := by
  have hrid : r.rid = rid := by simpa using List.find?_some hr
  have hrid' : r'.rid = rid' := by simpa using List.find?_some hr'
  have hne : ¬ (rid' = rid) := by
    intro heq
    rw [heq, hr] at hr'
    obtain rfl : r = r' := Option.some.inj hr'
    exact lt_irrefl _ hgt
  rw [cancelOp_eq s rid now reason r hr hq he]
  have hfind2 : findRes
      { s with
        reservations :=
          (updateRes (fun _ => cancelledRes r reason) rid s.reservations).map
            (compactAfter r.book r.queue_position) } rid =
      some (cancelledRes r reason) := by
    unfold findRes
    rw [findRes_after_replace_compact s.reservations rid rid
          (cancelledRes r reason) (by simpa [cancelledRes] using hrid)
          r.book r.queue_position]
    unfold findRes at hr
    rw [hr]
    simp [hrid, compactAfter, cancelledRes]
  rw [cancelOp_eq _ rid now' reason' (cancelledRes r reason) hfind2
        (by simpa [cancelledRes] using hq) (by simpa [cancelledRes] using he)]
  unfold findRes
  simp only [cancelledRes_book, cancelledRes_pos]
  rw [findRes_after_replace_compact _ rid rid'
        (cancelledRes (cancelledRes r reason) reason')
        (by simpa [cancelledRes] using hrid) r.book r.queue_position]
  rw [findRes_after_replace_compact s.reservations rid rid'
        (cancelledRes r reason) (by simpa [cancelledRes] using hrid)
        r.book r.queue_position]
  unfold findRes at hr'
  rw [hr']
  simp only [Option.map_map, Option.map_some', Function.comp_apply,
             beq_iff_eq, hrid']
  rw [if_neg hne]
  simp only [compactAfter_rid, hrid']
  rw [if_neg hne]
  by_cases hc : r.queue_position + 1 < r'.queue_position
  · have hlt : r.queue_position < r'.queue_position - 1 := by omega
    simp [compactAfter_pos, compactAfter_book, compactAfter_status,
          hbook, hst, hgt, hlt, hc]
    omega
  · have hnlt : ¬ (r.queue_position < r'.queue_position - 1) := by omega
    simp [compactAfter_pos, compactAfter_book, compactAfter_status,
          hbook, hst, hgt, hnlt, hc]

/-- Witness for C10 (amended) at the concrete two-element queue: the
immediate successor (initial position 2 behind position 1) ends at
position 1 after two cancels. -/
theorem claim_C10_amended_witness :
    (findRes (cancelOp (cancelOp stateC10 10 0 "dup") 10 0 "dup") 11).map
        Reservation.queue_position = some 1 := by
  have h := claim_C10_amended stateC10 10 11 0 0 "dup" "dup" resD1 resD2
      rfl (by decide) rfl rfl rfl (Or.inl rfl) (by decide)
  simpa using h

end LMS
